import Mathlib

/-!
Verification of the VitalGuard monitoring core: a shallow embedding of the
threshold evaluator, alert generator, risk scorer, vital stream generator,
medication sweep and scheduler from `app/services/alert.py`,
`app/services/simulator.py` and `app/services/twilio.py`, together with
theorems settling the specification's claims about them.

Numeric vital values are embedded as rationals; times are embedded as
integer seconds (Python `datetime` arithmetic on `timedelta` values).
-/

namespace VitalGuard

/-- Alert severities (`AlertSeverity` in `app/models/alert.py`). -/
inductive AlertSeverity
  | info
  | warning
  | critical
  | emergency
  deriving DecidableEq, Repr

/-- Alert types (`AlertType` in `app/models/alert.py`). -/
inductive AlertType
  | vital_warning
  | vital_critical
  | medication_missed
  | anomaly_detected
  deriving DecidableEq, Repr

/-- Patient risk levels (`RiskLevel` in `app/models/patient.py`). -/
inductive RiskLevel
  | low
  | medium
  | high
  | critical
  deriving DecidableEq, Repr

/-- The four-band threshold configuration handed to `check_threshold`
(the dict built in `get_thresholds_for_patient`); `none` models a bound
that is absent (`None` in the dict, or a key missing entirely, which
`dict.get` also reports as `None`). -/
structure Thresholds where
  min_warning : Option ℚ
  max_warning : Option ℚ
  min_critical : Option ℚ
  max_critical : Option ℚ
  deriving DecidableEq, Repr

/-- The `{}` fallback of `DEFAULT_THRESHOLDS.get(vital_type, {})`: every
`dict.get` on it returns `None`. -/
def emptyThresholds : Thresholds :=
  { min_warning := none, max_warning := none, min_critical := none, max_critical := none }

/-- A breach report: `(severity, breach_type, threshold_value)`.  The Python
function returns `(None, None, None)` for no breach, which is `none` here
(the three components are always all present or all absent). -/
abbrev Breach := AlertSeverity × String × ℚ

/-- Fourth check of `check_threshold` (`alert.py` lines 86-89):
`max_warning` then fall through to no breach. -/
def checkMaxWarning (v : ℚ) (t : Thresholds) : Option Breach :=
  match t.max_warning with
  | some mw => if v > mw then some (AlertSeverity.warning, "above_warning", mw) else none
  | none => none

/-- Third check of `check_threshold` (`alert.py` lines 84-85): `min_warning`,
falling through to the `max_warning` check. -/
def checkMinWarning (v : ℚ) (t : Thresholds) : Option Breach :=
  match t.min_warning with
  | some mw => if v < mw then some (AlertSeverity.warning, "below_warning", mw) else checkMaxWarning v t
  | none => checkMaxWarning v t

/-- Second check of `check_threshold` (`alert.py` lines 80-81): `max_critical`,
falling through to the warning checks. -/
def checkMaxCritical (v : ℚ) (t : Thresholds) : Option Breach :=
  match t.max_critical with
  | some mc => if v > mc then some (AlertSeverity.critical, "above_critical", mc) else checkMinWarning v t
  | none => checkMinWarning v t

/-- `check_threshold(value, thresholds)` from `app/services/alert.py`
lines 60-89: `None` value fails closed; otherwise the bounds are checked in
the fixed order critical-low, critical-high, warning-low, warning-high and
the first bound that is present and crossed wins. -/
def check_threshold (value : Option ℚ) (t : Thresholds) : Option Breach :=
  match value with
  | none => none
  | some v =>
    match t.min_critical with
    | some mc => if v < mc then some (AlertSeverity.critical, "below_critical", mc) else checkMaxCritical v t
    | none => checkMaxCritical v t

/-- The severity component of a breach report. -/
def breachSeverity (r : Option Breach) : Option AlertSeverity :=
  r.map (fun b => b.1)

/-- C1: for a present value `v` and a configuration with all four bounds
present and `min_critical < min_warning ≤ max_warning < max_critical`,
`check_threshold` reports critical iff `v < min_critical` or
`v > max_critical`, warning iff `v` is in the warning band but not the
critical band, and no breach otherwise. -/
theorem C1_check_threshold_sane_config
    (t : Thresholds) (v mw xw mc xc : ℚ)
    (hmw : t.min_warning = some mw) (hxw : t.max_warning = some xw)
    (hmc : t.min_critical = some mc) (hxc : t.max_critical = some xc)
    (h1 : mc < mw) (h2 : mw ≤ xw) (h3 : xw < xc) :
    (breachSeverity (check_threshold (some v) t) = some AlertSeverity.critical ↔
      (v < mc ∨ xc < v)) ∧
    (breachSeverity (check_threshold (some v) t) = some AlertSeverity.warning ↔
      ((mc ≤ v ∧ v < mw) ∨ (xw < v ∧ v ≤ xc))) ∧
    (check_threshold (some v) t = none ↔ (mw ≤ v ∧ v ≤ xw)) := by
  obtain ⟨a, b, c, d⟩ := t
  simp only [Thresholds.min_warning, Thresholds.max_warning, Thresholds.min_critical,
    Thresholds.max_critical] at hmw hxw hmc hxc
  subst hmw hxw hmc hxc
  simp only [check_threshold, checkMaxCritical, checkMinWarning, checkMaxWarning, breachSeverity]
  split_ifs with hc1 hc2 hw1 hw2
  · refine ⟨⟨fun _ => Or.inl hc1, fun _ => rfl⟩, ⟨fun h => ?_, fun h => ?_⟩,
      ⟨fun h => ?_, fun h => ?_⟩⟩
    · exact absurd h (by simp)
    · rcases h with ⟨h4, h5⟩ | ⟨h4, h5⟩ <;> exact (by linarith : False).elim
    · exact absurd h (by simp)
    · exact (by linarith [h.1] : False).elim
  · refine ⟨⟨fun _ => Or.inr hc2, fun _ => rfl⟩, ⟨fun h => ?_, fun h => ?_⟩,
      ⟨fun h => ?_, fun h => ?_⟩⟩
    · exact absurd h (by simp)
    · rcases h with ⟨h4, h5⟩ | ⟨h4, h5⟩ <;> exact (by linarith : False).elim
    · exact absurd h (by simp)
    · exact (by linarith [h.2] : False).elim
  · refine ⟨⟨fun h => ?_, fun h => ?_⟩, ⟨fun _ => Or.inl ⟨by linarith, hw1⟩, fun _ => rfl⟩,
      ⟨fun h => ?_, fun h => ?_⟩⟩
    · exact absurd h (by simp)
    · rcases h with h4 | h4 <;> exact (by linarith : False).elim
    · exact absurd h (by simp)
    · exact (by linarith [h.1] : False).elim
  · refine ⟨⟨fun h => ?_, fun h => ?_⟩, ⟨fun _ => Or.inr ⟨hw2, by linarith⟩, fun _ => rfl⟩,
      ⟨fun h => ?_, fun h => ?_⟩⟩
    · exact absurd h (by simp)
    · rcases h with h4 | h4 <;> exact (by linarith : False).elim
    · exact absurd h (by simp)
    · exact (by linarith [h.2] : False).elim
  · refine ⟨⟨fun h => ?_, fun h => ?_⟩, ⟨fun h => ?_, fun h => ?_⟩,
      ⟨fun _ => ⟨by linarith, by linarith⟩, fun _ => rfl⟩⟩
    · exact absurd h (by simp)
    · rcases h with h4 | h4 <;> exact (by linarith : False).elim
    · exact absurd h (by simp)
    · rcases h with ⟨h4, h5⟩ | ⟨h4, h5⟩ <;> exact (by linarith : False).elim

/-- Witness for C1 at the default heart-rate configuration and value 130. -/
theorem C1_check_threshold_sane_config_witness :
    ((50 : ℚ) < 100 ∧ (40 : ℚ) < 50 ∧ (100 : ℚ) < 120) ∧
    (breachSeverity (check_threshold (some 130)
        { min_warning := some 50, max_warning := some 100,
          min_critical := some 40, max_critical := some 120 }) =
      some AlertSeverity.critical ↔ ((130 : ℚ) < 40 ∨ (120 : ℚ) < 130)) := by
  refine ⟨by norm_num, ?_⟩
  exact (C1_check_threshold_sane_config
    { min_warning := some 50, max_warning := some 100,
      min_critical := some 40, max_critical := some 120 }
    130 50 100 40 120 rfl rfl rfl rfl (by norm_num) (by norm_num) (by norm_num)).1

/-- C6: when the `min_critical` bound is present and crossed, the evaluator
reports `below_critical` with critical severity even if the value also
crosses `max_warning` (malformed configuration): the critical-low check
comes first and first match wins. -/
theorem C6_check_order_critical_low_first
    (t : Thresholds) (v mc xw : ℚ)
    (hmc : t.min_critical = some mc) (hv : v < mc)
    (hxw : t.max_warning = some xw) (hvw : xw < v) :
    check_threshold (some v) t = some (AlertSeverity.critical, "below_critical", mc) := by
  simp only [check_threshold, hmc, if_pos hv]

/-- Witness for C6: a malformed configuration where value 5 is below the
critical-low bound 10 and above the warning-high bound 2. -/
theorem C6_check_order_critical_low_first_witness :
    ((5 : ℚ) < 10 ∧ (2 : ℚ) < 5) ∧
    check_threshold (some 5)
        { min_warning := some 1, max_warning := some 2,
          min_critical := some 10, max_critical := some 20 } =
      some (AlertSeverity.critical, "below_critical", 10) := by
  refine ⟨by norm_num, ?_⟩
  exact C6_check_order_critical_low_first
    { min_warning := some 1, max_warning := some 2,
      min_critical := some 10, max_critical := some 20 }
    5 10 2 rfl (by norm_num) rfl (by norm_num)

/-- A persisted `AlertThreshold` row (`app/models/patient.py` lines 53-63);
the four bounds are nullable columns. -/
structure AlertThreshold where
  patient_id : ℤ
  vital_type : String
  min_warning : Option ℚ
  max_warning : Option ℚ
  min_critical : Option ℚ
  max_critical : Option ℚ
  deriving DecidableEq, Repr

/-- The `DEFAULT_THRESHOLDS` table from `app/services/alert.py` lines 15-34. -/
def DEFAULT_THRESHOLDS : List (String × Thresholds) :=
  [("heart_rate", { min_warning := some 50, max_warning := some 100,
                    min_critical := some 40, max_critical := some 120 }),
   ("spo2", { min_warning := some 92, max_warning := none,
              min_critical := some 88, max_critical := none }),
   ("temperature", { min_warning := some 36, max_warning := some 37.5,
                     min_critical := some 35, max_critical := some 38.5 })]

/-- `get_thresholds_for_patient` from `app/services/alert.py` lines 37-57:
the `scalar_one_or_none` row query is embedded as `List.find?` over the
stored rows; with no explicit row the default table is consulted
(`DEFAULT_THRESHOLDS.get(vital_type, {})`). -/
def get_thresholds_for_patient (rows : List AlertThreshold) (patient_id : ℤ)
    (vital_type : String) : Thresholds :=
  match rows.find? (fun r => r.patient_id == patient_id && r.vital_type == vital_type) with
  | some r => { min_warning := r.min_warning, max_warning := r.max_warning,
                min_critical := r.min_critical, max_critical := r.max_critical }
  | none =>
    match DEFAULT_THRESHOLDS.find? (fun p => p.1 == vital_type) with
    | some p => p.2
    | none => emptyThresholds

/-- C9: a vital type outside the default table, for a patient with no
explicit threshold row of that type, resolves to the empty bounds mapping,
and evaluating any value against empty bounds reports no breach. -/
theorem C9_unknown_vital_type_never_breaches
    (rows : List AlertThreshold) (patient_id : ℤ) (vital_type : String)
    (hhr : vital_type ≠ "heart_rate") (hsp : vital_type ≠ "spo2")
    (htp : vital_type ≠ "temperature")
    (hnorow : ∀ r ∈ rows, ¬(r.patient_id = patient_id ∧ r.vital_type = vital_type)) :
    get_thresholds_for_patient rows patient_id vital_type = emptyThresholds ∧
    ∀ v : ℚ, check_threshold (some v)
      (get_thresholds_for_patient rows patient_id vital_type) = none := by
  have hfind : rows.find?
      (fun r => r.patient_id == patient_id && r.vital_type == vital_type) = none := by
    rw [List.find?_eq_none]
    intro r hr
    simp only [Bool.and_eq_true, beq_iff_eq, not_and]
    intro h1 h2
    exact hnorow r hr ⟨h1, h2⟩
  have e1 : (("heart_rate" : String) == vital_type) = false :=
    beq_eq_false_iff_ne.mpr (Ne.symm hhr)
  have e2 : (("spo2" : String) == vital_type) = false :=
    beq_eq_false_iff_ne.mpr (Ne.symm hsp)
  have e3 : (("temperature" : String) == vital_type) = false :=
    beq_eq_false_iff_ne.mpr (Ne.symm htp)
  have hdef : DEFAULT_THRESHOLDS.find? (fun p => p.1 == vital_type) = none := by
    simp only [DEFAULT_THRESHOLDS, List.find?, e1, e2, e3]
  have hres : get_thresholds_for_patient rows patient_id vital_type = emptyThresholds := by
    simp [get_thresholds_for_patient, hfind, hdef]
  exact ⟨hres, fun v => by rw [hres]; rfl⟩

/-- Witness for C9 at vital type `"blood_pressure_systolic"` with no stored
rows: the lookup yields empty bounds and value 250 produces no breach. -/
theorem C9_unknown_vital_type_never_breaches_witness :
    (("blood_pressure_systolic" : String) ≠ "heart_rate" ∧
     ("blood_pressure_systolic" : String) ≠ "spo2" ∧
     ("blood_pressure_systolic" : String) ≠ "temperature") ∧
    get_thresholds_for_patient [] 1 "blood_pressure_systolic" = emptyThresholds ∧
    check_threshold (some 250) (get_thresholds_for_patient [] 1 "blood_pressure_systolic") =
      none := by
  refine ⟨by decide, ?_⟩
  have h := C9_unknown_vital_type_never_breaches [] 1 "blood_pressure_systolic"
    (by decide) (by decide) (by decide) (by intro r hr; cases hr)
  exact ⟨h.1, h.2 250⟩

/-- A persisted alert row, restricted to the fields the risk scorer reads
(`Alert` in `app/models/alert.py`); `created_at` is in seconds. -/
structure AlertRow where
  patient_id : ℤ
  severity : AlertSeverity
  created_at : ℤ
  deriving DecidableEq, Repr

/-- One hour in seconds (`timedelta(hours=1)` in `_update_patient_risk`). -/
def oneHour : ℤ := 3600

/-- The `where` clause shared by the two count queries of
`_update_patient_risk` (`simulator.py` lines 263-285): patient match,
severity match, and `created_at >= one_hour_ago`. -/
def recentAlertMatch (patient_id : ℤ) (sev : AlertSeverity) (one_hour_ago : ℤ)
    (a : AlertRow) : Bool :=
  decide (a.patient_id = patient_id) && decide (a.severity = sev) &&
    decide (one_hour_ago ≤ a.created_at)

/-- The two count queries of `_update_patient_risk` (`simulator.py` lines
263-285): count alerts of the patient with the given severity and
`created_at >= one_hour_ago`. -/
def countRecentAlerts (alerts : List AlertRow) (patient_id : ℤ)
    (sev : AlertSeverity) (one_hour_ago : ℤ) : Nat :=
  (alerts.filter (recentAlertMatch patient_id sev one_hour_ago)).length

/-- The decision chain of `_update_patient_risk` (`simulator.py` lines
287-295). -/
def riskFromCounts (critical_count warning_count : Nat) : RiskLevel :=
  if critical_count ≥ 2 then RiskLevel.critical
  else if critical_count ≥ 1 ∨ warning_count ≥ 3 then RiskLevel.high
  else if warning_count ≥ 1 then RiskLevel.medium
  else RiskLevel.low

/-- The risk level `_update_patient_risk` computes for a patient at time
`now` from the alert table (`simulator.py` lines 260-295). -/
def computedRiskLevel (now : ℤ) (alerts : List AlertRow) (patient_id : ℤ) : RiskLevel :=
  riskFromCounts
    (countRecentAlerts alerts patient_id AlertSeverity.critical (now - oneHour))
    (countRecentAlerts alerts patient_id AlertSeverity.warning (now - oneHour))

/-- Patient row fields the risk scorer touches (`app/models/patient.py`). -/
structure PatientRow where
  id : ℤ
  risk_level : RiskLevel
  deriving DecidableEq, Repr

/-- `_update_patient_risk` (`simulator.py` lines 251-301): recompute the
level and write (assign and commit) the patient row only when it differs
from the stored level.  The second component counts the writes performed. -/
def update_patient_risk (now : ℤ) (alerts : List AlertRow) (p : PatientRow) :
    PatientRow × Nat :=
  let new_risk := computedRiskLevel now alerts p.id
  if p.risk_level ≠ new_risk then ({ p with risk_level := new_risk }, 1) else (p, 0)

/-- C2: the risk scorer follows the first-match decision table on the
critical/warning counts of the trailing one-hour window, and an alert older
than one hour does not influence the result. -/
theorem C2_risk_decision_table (now patient_id : ℤ) (alerts : List AlertRow)
    (a : AlertRow) (hold : a.created_at < now - 3600) :
    (computedRiskLevel now alerts patient_id =
      (let cc := countRecentAlerts alerts patient_id AlertSeverity.critical (now - 3600)
       let wc := countRecentAlerts alerts patient_id AlertSeverity.warning (now - 3600)
       if cc ≥ 2 then RiskLevel.critical
       else if cc ≥ 1 ∨ wc ≥ 3 then RiskLevel.high
       else if wc ≥ 1 then RiskLevel.medium
       else RiskLevel.low)) ∧
    computedRiskLevel now (a :: alerts) patient_id =
      computedRiskLevel now alerts patient_id := by
  refine ⟨rfl, ?_⟩
  have hfilter : ∀ sev, countRecentAlerts (a :: alerts) patient_id sev (now - oneHour) =
      countRecentAlerts alerts patient_id sev (now - oneHour) := by
    intro sev
    have hna : ¬(recentAlertMatch patient_id sev (now - oneHour) a = true) := by
      simp only [recentAlertMatch, Bool.and_eq_true, decide_eq_true_eq, oneHour, not_and]
      intro _
      omega
    simp only [countRecentAlerts]
    rw [List.filter_cons_of_neg hna]
  simp only [computedRiskLevel, hfilter]

/-- Witness for C2: a critical alert stamped at time 0 is outside the
window at `now = 10000` and leaves the (empty-history) LOW result intact. -/
theorem C2_risk_decision_table_witness :
    ((0 : ℤ) < 10000 - 3600) ∧
    computedRiskLevel 10000
        ({ patient_id := 1, severity := AlertSeverity.critical, created_at := 0 } :: []) 1 =
      computedRiskLevel 10000 [] 1 := by
  refine ⟨by norm_num, ?_⟩
  exact (C2_risk_decision_table 10000 1 []
    { patient_id := 1, severity := AlertSeverity.critical, created_at := 0 }
    (by norm_num)).2

/-- C8: when the computed level differs from the stored one the scorer
performs exactly one write and stores the computed level; invoking it again
with the same alert history performs zero writes and leaves the row
unchanged. -/
theorem C8_risk_write_only_on_change (now : ℤ) (alerts : List AlertRow) (p : PatientRow)
    (hchange : p.risk_level ≠ computedRiskLevel now alerts p.id) :
    (update_patient_risk now alerts p).2 = 1 ∧
    (update_patient_risk now alerts p).1.risk_level = computedRiskLevel now alerts p.id ∧
    update_patient_risk now alerts (update_patient_risk now alerts p).1 =
      ((update_patient_risk now alerts p).1, 0) := by
  refine ⟨?_, ?_, ?_⟩
  · simp [update_patient_risk, hchange]
  · simp [update_patient_risk, hchange]
  · simp [update_patient_risk, hchange]

/-- Witness for C8: two in-window critical alerts raise a LOW patient to
CRITICAL with one write; the repeat invocation writes nothing. -/
theorem C8_risk_write_only_on_change_witness :
    (RiskLevel.low ≠ computedRiskLevel 10000
      [{ patient_id := 1, severity := AlertSeverity.critical, created_at := 9000 },
       { patient_id := 1, severity := AlertSeverity.critical, created_at := 9500 }] 1) ∧
    (update_patient_risk 10000
      [{ patient_id := 1, severity := AlertSeverity.critical, created_at := 9000 },
       { patient_id := 1, severity := AlertSeverity.critical, created_at := 9500 }]
      { id := 1, risk_level := RiskLevel.low }).2 = 1 := by
  refine ⟨by decide, ?_⟩
  exact (C8_risk_write_only_on_change 10000
    [{ patient_id := 1, severity := AlertSeverity.critical, created_at := 9000 },
     { patient_id := 1, severity := AlertSeverity.critical, created_at := 9500 }]
    { id := 1, risk_level := RiskLevel.low } (by decide)).1

/-- The fields of an `Alert` touched by the notification step
(`app/models/alert.py`: `notification_sent` defaults to false and
`notification_channels` to null on creation). -/
structure AlertNotifState where
  severity : AlertSeverity
  notification_sent : Bool
  notification_channels : Option String
  deriving DecidableEq, Repr

/-- Outcome of `await twilio_service.send_whatsapp_alert(...)` as observed
by its caller: the call either returns its boolean result (`True` iff some
recipient succeeded, `twilio.py` lines 27-95) or raises an exception. -/
inductive DispatchOutcome
  | returned (sent : Bool)
  | raised
  deriving DecidableEq, Repr

/-- The critical-notification step of `check_vital_and_create_alerts`
(`alert.py` lines 169-181): for a critical alert, call the dispatcher
inside `try`; if the call returns, its boolean result is discarded and
`notification_sent = True`, `notification_channels = "whatsapp"` are set;
if it raises, the exception is logged and the alert left as-is. -/
def notifyCritical (dispatch : DispatchOutcome) (alert : AlertNotifState) : AlertNotifState :=
  if alert.severity = AlertSeverity.critical then
    match dispatch with
    | DispatchOutcome.returned _ =>
      { alert with notification_sent := true, notification_channels := some "whatsapp" }
    | DispatchOutcome.raised => alert
  else alert

/-- The tail of the per-vital loop body for one breach (`alert.py` lines
154-188): the alert is added to the session and the returned list before
the notification attempt, so it is created whatever the dispatch outcome. -/
def createdAlerts (dispatch : DispatchOutcome) (alert : AlertNotifState) :
    List AlertNotifState :=
  [notifyCritical dispatch alert]

/-- Counterexample to C3: a dispatch that returns `sent = false` (reported
failure, no exception) still leaves `notification_sent = true` on a fresh
critical alert, so `notification_sent` is not equivalent to "dispatch
reported success". -/
theorem C3_counterexample :
    (notifyCritical (DispatchOutcome.returned false)
      { severity := AlertSeverity.critical, notification_sent := false,
        notification_channels := none }).notification_sent = true ∧
    DispatchOutcome.returned false ≠ DispatchOutcome.returned true := by
  exact ⟨rfl, by decide⟩

/-- C3 (amended): for a fresh critical alert the generator invokes dispatch
and sets `notification_sent` and `notification_channels = "whatsapp"` iff
the dispatch call returned without raising — its boolean result is
discarded — and the alert is created whatever the outcome. -/
theorem C3_notification_recorded_on_return
    (dispatch : DispatchOutcome) (alert : AlertNotifState)
    (hcrit : alert.severity = AlertSeverity.critical)
    (hfresh : alert.notification_sent = false)
    (hchan : alert.notification_channels = none) :
    ((notifyCritical dispatch alert).notification_sent = true ↔
      dispatch ≠ DispatchOutcome.raised) ∧
    ((notifyCritical dispatch alert).notification_channels = some "whatsapp" ↔
      dispatch ≠ DispatchOutcome.raised) ∧
    (createdAlerts dispatch alert).length = 1 := by
  cases dispatch <;> simp [notifyCritical, createdAlerts, hcrit, hfresh, hchan]

/-- Witness for C3 (amended): an exception during dispatch leaves the flag
unset and the channel empty, and the critical alert is still created. -/
theorem C3_notification_recorded_on_return_witness :
    (AlertSeverity.critical = AlertSeverity.critical ∧ false = false) ∧
    ((notifyCritical DispatchOutcome.raised
        { severity := AlertSeverity.critical, notification_sent := false,
          notification_channels := none }).notification_sent = true ↔
      DispatchOutcome.raised ≠ DispatchOutcome.raised) ∧
    (createdAlerts DispatchOutcome.raised
        { severity := AlertSeverity.critical, notification_sent := false,
          notification_channels := none }).length = 1 := by
  refine ⟨⟨rfl, rfl⟩, ?_⟩
  have h := C3_notification_recorded_on_return DispatchOutcome.raised
    { severity := AlertSeverity.critical, notification_sent := false,
      notification_channels := none } rfl rfl rfl
  exact ⟨h.1, h.2.2⟩

/-- Medication log statuses (`MedicationStatus` in
`app/models/medication.py`). -/
inductive MedicationStatus
  | pending
  | taken
  | missed
  | skipped
  deriving DecidableEq, Repr

/-- A `Medication` row, restricted to the fields the sweep reads. -/
structure Medication where
  id : ℤ
  name : String
  deriving DecidableEq, Repr

/-- A `MedicationLog` row, restricted to the fields the sweep touches;
`scheduled_time` is in seconds. -/
structure MedicationLog where
  id : ℤ
  medication_id : ℤ
  patient_id : ℤ
  scheduled_time : ℤ
  status : MedicationStatus
  deriving DecidableEq, Repr

/-- The grace period `timedelta(minutes=30)` in seconds
(`simulator.py` line 306). -/
def gracePeriod : ℤ := 1800

/-- The row selection of `_check_missed_medications` (`simulator.py` lines
309-320): pending logs of the patient with
`scheduled_time < now - grace_period`, inner-joined to `medications`
(the join keeps only logs whose medication row exists). -/
def sweepSelects (now : ℤ) (meds : List Medication) (patient_id : ℤ)
    (l : MedicationLog) : Bool :=
  meds.any (fun m => decide (m.id = l.medication_id)) &&
    decide (l.patient_id = patient_id) &&
    decide (l.status = MedicationStatus.pending) &&
    decide (l.scheduled_time < now - gracePeriod)

/-- The alert created for one missed log (`simulator.py` lines 334-339),
restricted to the fields the claim speaks about. -/
structure MissedMedAlert where
  patient_id : ℤ
  alert_type : AlertType
  severity : AlertSeverity
  deriving DecidableEq, Repr

/-- `_check_missed_medications` (`simulator.py` lines 303-349): every
selected log is marked missed and yields one medication-missed / warning
alert; all other logs are left as they are. -/
def check_missed_medications (now : ℤ) (meds : List Medication)
    (logs : List MedicationLog) (patient_id : ℤ) :
    List MedicationLog × List MissedMedAlert :=
  let pending_logs := logs.filter (sweepSelects now meds patient_id)
  (logs.map (fun l => if sweepSelects now meds patient_id l then
      { l with status := MedicationStatus.missed } else l),
   pending_logs.map (fun _ =>
      { patient_id := patient_id, alert_type := AlertType.medication_missed,
        severity := AlertSeverity.warning }))

/-- C7: under referential integrity of `medication_id` (every log's
medication row exists, so the inner join filters nothing), the sweep marks
exactly the pending logs of the patient past the 30-minute grace period as
missed, leaves every other log unchanged, and yields exactly one
medication-missed / warning alert per overdue log. -/
theorem C7_medication_sweep (now patient_id : ℤ) (meds : List Medication)
    (logs : List MedicationLog)
    (href : ∀ l ∈ logs, ∃ m ∈ meds, m.id = l.medication_id) :
    (check_missed_medications now meds logs patient_id).1 =
      logs.map (fun l =>
        if l.patient_id = patient_id ∧ l.status = MedicationStatus.pending ∧
            l.scheduled_time < now - 1800 then
          { l with status := MedicationStatus.missed } else l) ∧
    (check_missed_medications now meds logs patient_id).2.length =
      (logs.filter (fun l => decide (l.patient_id = patient_id) &&
        decide (l.status = MedicationStatus.pending) &&
        decide (l.scheduled_time < now - 1800))).length ∧
    ∀ alert ∈ (check_missed_medications now meds logs patient_id).2,
      alert.alert_type = AlertType.medication_missed ∧
      alert.severity = AlertSeverity.warning ∧ alert.patient_id = patient_id := by
  have hpt : ∀ l ∈ logs, sweepSelects now meds patient_id l =
      (decide (l.patient_id = patient_id) && decide (l.status = MedicationStatus.pending) &&
       decide (l.scheduled_time < now - 1800)) := by
    intro l hl
    obtain ⟨m, hm, hmid⟩ := href l hl
    have hany : meds.any (fun m => decide (m.id = l.medication_id)) = true := by
      rw [List.any_eq_true]
      exact ⟨m, hm, by simp [hmid]⟩
    simp only [sweepSelects, gracePeriod, hany, Bool.true_and]
  refine ⟨?_, ?_, ?_⟩
  · simp only [check_missed_medications]
    refine List.map_congr_left (fun l hl => ?_)
    rw [hpt l hl]
    simp [Bool.and_eq_true, decide_eq_true_eq, and_assoc]
  · simp only [check_missed_medications, List.length_map]
    rw [List.filter_congr hpt]
  · intro alert halert
    simp only [check_missed_medications, List.mem_map] at halert
    obtain ⟨l, hl, rfl⟩ := halert
    exact ⟨rfl, rfl, rfl⟩

/-- Witness for C7: at `now = 100000`, a pending log scheduled 31 minutes
ago is marked missed while one scheduled 10 minutes ago is untouched. -/
theorem C7_medication_sweep_witness :
    (∀ l ∈ [({ id := 1, medication_id := 1, patient_id := 1, scheduled_time := 98140,
               status := MedicationStatus.pending } : MedicationLog),
            { id := 2, medication_id := 1, patient_id := 1, scheduled_time := 99400,
              status := MedicationStatus.pending }],
       ∃ m ∈ [({ id := 1, name := "A" } : Medication)], m.id = l.medication_id) ∧
    (check_missed_medications 100000 [{ id := 1, name := "A" }]
      [{ id := 1, medication_id := 1, patient_id := 1, scheduled_time := 98140,
         status := MedicationStatus.pending },
       { id := 2, medication_id := 1, patient_id := 1, scheduled_time := 99400,
         status := MedicationStatus.pending }] 1).1 =
      [{ id := 1, medication_id := 1, patient_id := 1, scheduled_time := 98140,
         status := MedicationStatus.missed },
       { id := 2, medication_id := 1, patient_id := 1, scheduled_time := 99400,
         status := MedicationStatus.pending }] := by
  refine ⟨by decide, ?_⟩
  rw [(C7_medication_sweep 100000 1 [{ id := 1, name := "A" }]
    [{ id := 1, medication_id := 1, patient_id := 1, scheduled_time := 98140,
       status := MedicationStatus.pending },
     { id := 2, medication_id := 1, patient_id := 1, scheduled_time := 99400,
       status := MedicationStatus.pending }] (by decide)).1]
  decide

/-- Phase of the simulator's driving task, identified by its next
suspension point: suspended in the inter-cycle `asyncio.sleep`
(`simulator.py` line 392), suspended on the awaited per-patient database
work inside `_run_simulation_cycle`'s loop (lines 359-372, with the listed
patients still to process), or terminated. -/
inductive TaskPhase
  | sleeping
  | inCycle (remaining : List ℤ)
  | finished
  deriving DecidableEq, Repr

/-- Scheduler state: the `running` flag of `VitalSimulator`, whether
`Task.cancel()` has been requested on the driving task, the task's phase,
and the patients processed so far. -/
structure SchedulerState where
  running : Bool
  cancelRequested : Bool
  phase : TaskPhase
  processed : List ℤ
  deriving DecidableEq, Repr

/-- One step of the driving task between suspension points, following
asyncio semantics: a requested cancellation raises `CancelledError` at the
task's next suspension point, and since the per-patient handler catches
only `Exception` (line 370), which does not include `CancelledError`, the
task terminates there; otherwise the task processes the next patient of the
cycle, ends the cycle into the sleep, or wakes from the sleep into a new
cycle exactly when `running` is still set (`while self.running`,
line 386). -/
def schedulerStep (patients : List ℤ) (s : SchedulerState) : SchedulerState :=
  if s.cancelRequested ∧ s.phase ≠ TaskPhase.finished then
    { s with phase := TaskPhase.finished }
  else
    match s.phase with
    | TaskPhase.inCycle (p :: rest) =>
      { s with processed := s.processed ++ [p], phase := TaskPhase.inCycle rest }
    | TaskPhase.inCycle [] => { s with phase := TaskPhase.sleeping }
    | TaskPhase.sleeping =>
      if s.running then { s with phase := TaskPhase.inCycle patients }
      else { s with phase := TaskPhase.finished }
    | TaskPhase.finished => s

/-- `VitalSimulator.stop` (`simulator.py` lines 394-403): clear `running`
and request cancellation of the driving task (`self._task.cancel()`),
then await its termination. -/
def simulatorStop (s : SchedulerState) : SchedulerState :=
  { s with running := false, cancelRequested := true }

/-- One cancelled step: a task whose cancellation has been requested
terminates at its next suspension point without processing anything
further, and the request stays visible. -/
theorem schedulerStep_cancelled (patients : List ℤ) (t : SchedulerState)
    (h : t.cancelRequested = true) :
    (schedulerStep patients t).processed = t.processed ∧
    (schedulerStep patients t).phase = TaskPhase.finished ∧
    (schedulerStep patients t).cancelRequested = true := by
  by_cases hp : t.phase = TaskPhase.finished <;>
    simp [schedulerStep, h, hp]

/-- Iterated form of `schedulerStep_cancelled`: after cancellation the
processed list never grows again and the task stays terminated. -/
theorem schedulerStep_iterate_cancelled (patients : List ℤ) (t : SchedulerState)
    (h : t.cancelRequested = true) (n : ℕ) :
    ((schedulerStep patients)^[n + 1] t).processed = t.processed ∧
    ((schedulerStep patients)^[n + 1] t).phase = TaskPhase.finished ∧
    ((schedulerStep patients)^[n + 1] t).cancelRequested = true := by
  induction n with
  | zero => simpa using schedulerStep_cancelled patients t h
  | succ k ih =>
    rw [Function.iterate_succ_apply']
    obtain ⟨h1, h2, h3⟩ := ih
    obtain ⟨g1, g2, g3⟩ := schedulerStep_cancelled patients _ h3
    exact ⟨g1.trans h1, g2, g3⟩

/-- Counterexample to C4: stopping the scheduler while the driving task is
mid-cycle with patients 1 and 2 still to process terminates the task at its
next suspension point with neither patient processed — the in-progress
cycle does not naturally complete.  Five further steps (any number would
do) leave the aborted state unchanged. -/
theorem C4_counterexample :
    schedulerStep [1, 2] (simulatorStop
      { running := true, cancelRequested := false,
        phase := TaskPhase.inCycle [1, 2], processed := [] }) =
      { running := false, cancelRequested := true,
        phase := TaskPhase.finished, processed := [] } ∧
    (schedulerStep [1, 2])^[5] (simulatorStop
      { running := true, cancelRequested := false,
        phase := TaskPhase.inCycle [1, 2], processed := [] }) =
      { running := false, cancelRequested := true,
        phase := TaskPhase.finished, processed := [] } := by
  constructor <;> rfl

/-- C4 (amended): `stop()` clears `running`, so no new cycle can start, and
cancels the driving task; the cancellation terminates the task at its next
suspension point, so a cycle in progress is aborted there: however long the
system keeps stepping afterwards, no further patient of that cycle is ever
processed. -/
theorem C4_stop_aborts_in_progress_cycle (patients : List ℤ) (s : SchedulerState)
    (n : ℕ) (hn : 1 ≤ n) :
    (simulatorStop s).running = false ∧
    ((schedulerStep patients)^[n] (simulatorStop s)).processed = s.processed ∧
    ((schedulerStep patients)^[n] (simulatorStop s)).phase = TaskPhase.finished := by
  obtain ⟨m, rfl⟩ : ∃ m, n = m + 1 := ⟨n - 1, by omega⟩
  obtain ⟨h1, h2, _⟩ := schedulerStep_iterate_cancelled patients (simulatorStop s) rfl m
  exact ⟨rfl, h1, h2⟩

/-- Witness for C4 (amended) at the counterexample's starting state with
three steps. -/
theorem C4_stop_aborts_in_progress_cycle_witness :
    1 ≤ 3 ∧
    ((schedulerStep [1, 2])^[3] (simulatorStop
      { running := true, cancelRequested := false,
        phase := TaskPhase.inCycle [1, 2], processed := [] })).processed = [] := by
  refine ⟨by norm_num, ?_⟩
  exact (C4_stop_aborts_in_progress_cycle [1, 2]
    { running := true, cancelRequested := false,
      phase := TaskPhase.inCycle [1, 2], processed := [] } 3 (by norm_num)).2.1

/-- A named simulation range `{"min": a, "max": b}` of `VITAL_RANGES`. -/
structure VitalRange where
  min : ℚ
  max : ℚ
  deriving DecidableEq, Repr

/-- `VITAL_RANGES` from `simulator.py` lines 27-58. -/
def VITAL_RANGES : List (String × List (String × VitalRange)) :=
  [("heart_rate",
     [("normal", ⟨60, 100⟩), ("elevated", ⟨100, 120⟩), ("low", ⟨45, 60⟩)]),
   ("temperature",
     [("normal", ⟨36.1, 37.2⟩), ("fever", ⟨37.5, 39⟩), ("low", ⟨35, 36⟩)]),
   ("spo2",
     [("normal", ⟨95, 100⟩), ("low", ⟨88, 94⟩), ("critical", ⟨82, 88⟩)]),
   ("blood_pressure_systolic",
     [("normal", ⟨110, 130⟩), ("high", ⟨130, 160⟩), ("low", ⟨85, 110⟩)]),
   ("blood_pressure_diastolic",
     [("normal", ⟨70, 85⟩), ("high", ⟨85, 100⟩), ("low", ⟨55, 70⟩)]),
   ("respiratory_rate",
     [("normal", ⟨12, 20⟩), ("elevated", ⟨20, 30⟩), ("low", ⟨8, 12⟩)])]

/-- Python `dict.get` over an association list with string keys. -/
def dictGet? {α : Type} (d : List (String × α)) (key : String) : Option α :=
  (d.find? (fun p => p.1 == key)).map (fun p => p.2)

/-- One channel's bias entry of a condition profile:
`{"bias": ..., "probability": ...}` (`simulator.py` lines 61-83). -/
structure BiasEntry where
  bias : String
  probability : ℚ
  deriving DecidableEq, Repr

/-- A condition profile row: per vital type, a bias entry. -/
abbrev Profile := List (String × BiasEntry)

/-- CPython's `random.uniform(a, b) = a + (b - a) * random()`, with the
unit draw `r` passed explicitly; for `a > b` the result lies in `[b, a]`. -/
def pyUniform (a b r : ℚ) : ℚ := a + (b - a) * r

/-- Python's `round` (banker's rounding, half to even) on a rational. -/
def pyRound (x : ℚ) : ℤ :=
  if x - ⌊x⌋ < 1/2 then ⌊x⌋
  else if x - ⌊x⌋ > 1/2 then ⌊x⌋ + 1
  else if ⌊x⌋ % 2 = 0 then ⌊x⌋ else ⌊x⌋ + 1

/-- Python's `round(x, 1)` on the exact rational value. -/
def pyRound1 (x : ℚ) : ℚ := (pyRound (10 * x) : ℚ) / 10

/-- The ranges table for a vital type:
`VITAL_RANGES.get(vital_type, {"normal": {"min": 0, "max": 100}})`
(`simulator.py` line 121). -/
def rangesFor (vital_type : String) : List (String × VitalRange) :=
  (dictGet? VITAL_RANGES vital_type).getD [("normal", ⟨0, 100⟩)]

/-- The range selection of `_generate_vital_value` (`simulator.py` lines
123-133): when the profile biases this vital type and the unit draw falls
below the stated probability, use the bias range name, else `"normal"`;
then `ranges.get(bias_range, ranges.get("normal"))`.  Every channel of
`VITAL_RANGES` defines `"normal"`, so the terminal fallback (on which the
Python arithmetic below would raise on `None`) never fires for real
channels; it is given the full default range here. -/
def selectedRange (vital_type : String) (profile : Profile) (biasDraw : ℚ) : VitalRange :=
  let ranges := rangesFor vital_type
  let bias_range :=
    match dictGet? profile vital_type with
    | some e => if biasDraw < e.probability then e.bias else "normal"
    | none => "normal"
  match dictGet? ranges bias_range with
  | some r => r
  | none => (dictGet? ranges "normal").getD ⟨0, 100⟩

/-- The pre-rounding value of `_generate_vital_value` (`simulator.py` lines
135-143): with a previous value, clamp the window to
`[max(min, prev - Δ), min(max, prev + Δ)]` with `Δ = (max - min) * 0.15`
and draw uniformly in it; without one, draw over the full selected range. -/
def unroundedVitalValue (vital_type : String) (profile : Profile)
    (previous_value : Option ℚ) (biasDraw valueDraw : ℚ) : ℚ :=
  let r := selectedRange vital_type profile biasDraw
  match previous_value with
  | some prev =>
    let max_change := (r.max - r.min) * 0.15
    let new_min := max r.min (prev - max_change)
    let new_max := min r.max (prev + max_change)
    pyUniform new_min new_max valueDraw
  | none => pyUniform r.min r.max valueDraw

/-- `_generate_vital_value` (`simulator.py` lines 110-151): the drawn value
rounded per channel — nearest integer for spo2, heart_rate,
respiratory_rate and the default branch, one decimal for temperature. -/
def generate_vital_value (vital_type : String) (profile : Profile)
    (previous_value : Option ℚ) (biasDraw valueDraw : ℚ) : ℚ :=
  if vital_type = "spo2" ∨ vital_type = "heart_rate" ∨ vital_type = "respiratory_rate" then
    (pyRound (unroundedVitalValue vital_type profile previous_value biasDraw valueDraw) : ℚ)
  else if vital_type = "temperature" then
    pyRound1 (unroundedVitalValue vital_type profile previous_value biasDraw valueDraw)
  else
    (pyRound (unroundedVitalValue vital_type profile previous_value biasDraw valueDraw) : ℚ)

/-- `pyUniform` with ordered bounds and a unit draw stays in the bounds. -/
theorem pyUniform_mem (a b r : ℚ) (hab : a ≤ b) (hr0 : 0 ≤ r) (hr1 : r ≤ 1) :
    a ≤ pyUniform a b r ∧ pyUniform a b r ≤ b := by
  unfold pyUniform
  constructor
  · nlinarith
  · nlinarith

/-- A uniform draw in the clamped window stays within `d` of the previous
value, provided the previous value lies in `[lo, hi]`. -/
theorem smoothWindow (lo hi prev d r : ℚ) (hd : 0 ≤ d) (hlo : lo ≤ prev)
    (hhi : prev ≤ hi) (hr0 : 0 ≤ r) (hr1 : r ≤ 1) :
    |pyUniform (max lo (prev - d)) (min hi (prev + d)) r - prev| ≤ d := by
  have h1 : max lo (prev - d) ≤ prev := max_le hlo (by linarith)
  have h2 : prev ≤ min hi (prev + d) := le_min hhi (by linarith)
  obtain ⟨g1, g2⟩ := pyUniform_mem _ _ r (le_trans h1 h2) hr0 hr1
  have h4 : prev - d ≤ max lo (prev - d) := le_max_right lo (prev - d)
  have h5 : min hi (prev + d) ≤ prev + d := min_le_right hi (prev + d)
  rw [abs_le]
  constructor <;> linarith

/-- Banker's rounding moves a value by at most one half. -/
theorem pyRound_close (x : ℚ) : |(pyRound x : ℚ) - x| ≤ 1/2 := by
  have h1 : (⌊x⌋ : ℚ) ≤ x := Int.floor_le x
  have h2 : x < ⌊x⌋ + 1 := Int.lt_floor_add_one x
  unfold pyRound
  split_ifs with ha hb hc <;>
  · rw [abs_le]
    constructor <;> push_cast <;> linarith

/-- Rounding to one decimal moves a value by at most one twentieth. -/
theorem pyRound1_close (x : ℚ) : |pyRound1 x - x| ≤ 1/20 := by
  have h := pyRound_close (10 * x)
  unfold pyRound1
  rw [abs_le] at h ⊢
  constructor <;> linarith [h.1, h.2]

/-- Banker's rounding fixes integer values. -/
theorem pyRound_intCast (z : ℤ) : pyRound (z : ℚ) = z := by
  unfold pyRound
  rw [Int.floor_intCast]
  norm_num

/-- Counterexample to C5: for spo2, with a previous value 82 emitted from
the `critical` range, a second draw that selects the `normal` range
(95-100) produces 95 — a jump of 13, far above
`0.15 * (range.max - range.min) = 0.75` for the selected range.  The
clamped window `[max(95, 81.25), min(100, 82.75)] = [95, 82.75]` is
inverted, and `random.uniform` on inverted bounds escapes the smoothness
envelope. -/
theorem C5_counterexample :
    generate_vital_value "spo2" [("spo2", { bias := "critical", probability := 1/2 })]
      none 0 0 = 82 ∧
    generate_vital_value "spo2" [("spo2", { bias := "critical", probability := 1/2 })]
      (some 82) (9/10) 0 = 95 ∧
    selectedRange "spo2" [("spo2", { bias := "critical", probability := 1/2 })] (9/10) =
      { min := 95, max := 100 } ∧
    ¬(|(95 : ℚ) - 82| ≤ 0.15 * (100 - 95)) := by
  have s1 : (("normal" == "critical") : Bool) = false := by decide
  have s2 : (("low" == "critical") : Bool) = false := by decide
  have hu1 : unroundedVitalValue "spo2"
      [("spo2", { bias := "critical", probability := 1/2 })] none 0 0 = 82 := by
    norm_num [unroundedVitalValue, selectedRange, rangesFor, dictGet?, VITAL_RANGES,
      List.find?, pyUniform, s1, s2]
  have hu2 : unroundedVitalValue "spo2"
      [("spo2", { bias := "critical", probability := 1/2 })] (some 82) (9/10) 0 = 95 := by
    norm_num [unroundedVitalValue, selectedRange, rangesFor, dictGet?, VITAL_RANGES,
      List.find?, pyUniform, max_def, min_def]
  refine ⟨?_, ?_, ?_, ?_⟩
  · have hg : generate_vital_value "spo2"
        [("spo2", { bias := "critical", probability := 1/2 })] none 0 0 =
        (pyRound (unroundedVitalValue "spo2"
          [("spo2", { bias := "critical", probability := 1/2 })] none 0 0) : ℚ) := by
      norm_num [generate_vital_value]
    rw [hg, hu1, show (82 : ℚ) = ((82 : ℤ) : ℚ) by norm_num, pyRound_intCast]
  · have hg : generate_vital_value "spo2"
        [("spo2", { bias := "critical", probability := 1/2 })] (some 82) (9/10) 0 =
        (pyRound (unroundedVitalValue "spo2"
          [("spo2", { bias := "critical", probability := 1/2 })] (some 82) (9/10) 0) : ℚ) := by
      norm_num [generate_vital_value]
    rw [hg, hu2, show (95 : ℚ) = ((95 : ℤ) : ℚ) by norm_num, pyRound_intCast]
  · norm_num [selectedRange, rangesFor, dictGet?, VITAL_RANGES, List.find?]
  · rw [abs_of_nonneg (by norm_num : (0 : ℚ) ≤ 95 - 82)]
    norm_num

/-- C5 (amended): when the previous value lies inside the range selected on
the second draw, the pre-rounding drawn value differs from it by at most
`0.15 * (range.max - range.min)`, and the emitted (rounded) value by at
most that plus the rounding granularity (at most one half for every
channel; one twentieth for temperature). -/
theorem C5_smoothness_within_selected_range (vital_type : String) (profile : Profile)
    (prev biasDraw r : ℚ) (hr0 : 0 ≤ r) (hr1 : r ≤ 1)
    (hlo : (selectedRange vital_type profile biasDraw).min ≤ prev)
    (hhi : prev ≤ (selectedRange vital_type profile biasDraw).max) :
    |unroundedVitalValue vital_type profile (some prev) biasDraw r - prev| ≤
      ((selectedRange vital_type profile biasDraw).max -
        (selectedRange vital_type profile biasDraw).min) * 0.15 ∧
    |generate_vital_value vital_type profile (some prev) biasDraw r - prev| ≤
      ((selectedRange vital_type profile biasDraw).max -
        (selectedRange vital_type profile biasDraw).min) * 0.15 + 1/2 := by
  have hd : (0 : ℚ) ≤ ((selectedRange vital_type profile biasDraw).max -
      (selectedRange vital_type profile biasDraw).min) * 0.15 := by
    have hle : (0 : ℚ) ≤ (selectedRange vital_type profile biasDraw).max -
        (selectedRange vital_type profile biasDraw).min := by linarith
    exact mul_nonneg hle (by norm_num)
  have hmain : |unroundedVitalValue vital_type profile (some prev) biasDraw r - prev| ≤
      ((selectedRange vital_type profile biasDraw).max -
        (selectedRange vital_type profile biasDraw).min) * 0.15 :=
    smoothWindow (selectedRange vital_type profile biasDraw).min
      (selectedRange vital_type profile biasDraw).max prev
      (((selectedRange vital_type profile biasDraw).max -
        (selectedRange vital_type profile biasDraw).min) * 0.15) r hd hlo hhi hr0 hr1
  have tri : ∀ z : ℚ,
      |z - unroundedVitalValue vital_type profile (some prev) biasDraw r| ≤ 1/2 →
      |z - prev| ≤ ((selectedRange vital_type profile biasDraw).max -
        (selectedRange vital_type profile biasDraw).min) * 0.15 + 1/2 := by
    intro z hz
    calc |z - prev| ≤ |z - unroundedVitalValue vital_type profile (some prev) biasDraw r| +
        |unroundedVitalValue vital_type profile (some prev) biasDraw r - prev| :=
          abs_sub_le _ _ _
      _ ≤ _ := by linarith [hmain]
  refine ⟨hmain, ?_⟩
  unfold generate_vital_value
  split_ifs with h1 h2
  · exact tri _ (pyRound_close _)
  · exact tri _ (le_trans (pyRound1_close _) (by norm_num))
  · exact tri _ (pyRound_close _)

/-- Witness for C5 (amended): heart rate at previous value 80 inside the
normal range 60-100. -/
theorem C5_smoothness_within_selected_range_witness :
    ((0 : ℚ) ≤ 1/2 ∧ (1/2 : ℚ) ≤ 1 ∧
      (selectedRange "heart_rate" [] (1/2)).min ≤ 80 ∧
      (80 : ℚ) ≤ (selectedRange "heart_rate" [] (1/2)).max) ∧
    |unroundedVitalValue "heart_rate" [] (some 80) (1/2) (1/2) - 80| ≤
      ((selectedRange "heart_rate" [] (1/2)).max -
        (selectedRange "heart_rate" [] (1/2)).min) * 0.15 := by
  have hsel : selectedRange "heart_rate" [] (1/2) = { min := 60, max := 100 } := by
    norm_num [selectedRange, rangesFor, dictGet?, VITAL_RANGES, List.find?]
  refine ⟨⟨by norm_num, by norm_num, by rw [hsel]; norm_num, by rw [hsel]; norm_num⟩, ?_⟩
  exact (C5_smoothness_within_selected_range "heart_rate" [] 80 (1/2) (1/2)
    (by norm_num) (by norm_num) (by rw [hsel]; norm_num) (by rw [hsel]; norm_num)).1

/-- `CONDITION_PROFILES` from `simulator.py` lines 61-83 (iteration order of
the Python dict is its insertion order). -/
def CONDITION_PROFILES : List (String × Profile) :=
  [("Hypertension",
     [("heart_rate", ⟨"elevated", 0.3⟩),
      ("blood_pressure_systolic", ⟨"high", 0.4⟩),
      ("blood_pressure_diastolic", ⟨"high", 0.4⟩)]),
   ("COPD",
     [("spo2", ⟨"low", 0.4⟩), ("respiratory_rate", ⟨"elevated", 0.3⟩)]),
   ("Heart Failure",
     [("heart_rate", ⟨"elevated", 0.3⟩), ("spo2", ⟨"low", 0.3⟩)]),
   ("Diabetes", [("temperature", ⟨"normal", 0.1⟩)]),
   ("Post-Surgery",
     [("heart_rate", ⟨"elevated", 0.2⟩), ("temperature", ⟨"fever", 0.15⟩)]),
   ("default", [])]

/-- `_get_patient_profile` (`simulator.py` lines 100-108): the empty
condition falls back to the empty `default` profile; otherwise the first
table key whose lowercased text occurs as a substring of the lowercased
condition wins, and the fallback is again the empty profile. -/
def get_patient_profile (condition : String) : Profile :=
  if condition = "" then []
  else
    match CONDITION_PROFILES.find? (fun p =>
      decide (p.1.toLower.toList <:+: condition.toLower.toList)) with
    | some p => p.2
    | none => []

/-- In-memory per-patient state dict of the simulator
(`self._patient_states[patient_id]`, `simulator.py` lines 164-198), one
slot per generated channel; a key that `state.get(...)` has never seen is
`none`. -/
structure PatientSimState where
  heart_rate : Option ℚ
  temperature : Option ℚ
  spo2 : Option ℚ
  bp_systolic : Option ℚ
  bp_diastolic : Option ℚ
  respiratory_rate : Option ℚ
  deriving DecidableEq, Repr

/-- The fresh `{}` state of a patient not yet simulated. -/
def emptySimState : PatientSimState :=
  { heart_rate := none, temperature := none, spo2 := none,
    bp_systolic := none, bp_diastolic := none, respiratory_rate := none }

/-- Python dict read `self._patient_states[patient_id]`. -/
def statesGet? (states : List (ℤ × PatientSimState)) (patient_id : ℤ) :
    Option PatientSimState :=
  (states.find? (fun p => p.1 == patient_id)).map (fun p => p.2)

/-- Python dict assignment `self._patient_states[patient_id] = ...`:
replace the entry when the key exists, else append it. -/
def statesSet (states : List (ℤ × PatientSimState)) (patient_id : ℤ)
    (v : PatientSimState) : List (ℤ × PatientSimState) :=
  if states.any (fun p => p.1 == patient_id) then
    states.map (fun p => if p.1 == patient_id then (patient_id, v) else p)
  else states ++ [(patient_id, v)]

/-- Patient fields read by `generate_vital_payload`
(`app/models/patient.py`: `condition_summary` is nullable). -/
structure SimPatient where
  id : ℤ
  condition_summary : Option String
  deriving DecidableEq, Repr

/-- Python `int(x)`: truncation toward zero. -/
def pyInt (x : ℚ) : ℤ := if 0 ≤ x then ⌊x⌋ else ⌈x⌉

/-- The IoT payload assembled by `generate_vital_payload`
(`simulator.py` lines 200-212), numeric fields only: the constant
provenance fields (`source`, `device_id`, `timestamp`) carry no state and
are not modelled. -/
structure VitalPayload where
  patient_id : ℤ
  heart_rate : ℚ
  temperature : ℚ
  spo2 : ℚ
  blood_pressure_systolic : ℤ
  blood_pressure_diastolic : ℤ
  respiratory_rate : ℚ
  deriving DecidableEq, Repr

/-- The two `random.random()` unit draws made inside
`_generate_vital_value` for each of the six channels of one payload,
passed explicitly. -/
structure PayloadRand where
  hrBias : ℚ
  hrVal : ℚ
  tempBias : ℚ
  tempVal : ℚ
  spo2Bias : ℚ
  spo2Val : ℚ
  bpsBias : ℚ
  bpsVal : ℚ
  bpdBias : ℚ
  bpdVal : ℚ
  rrBias : ℚ
  rrVal : ℚ
  deriving DecidableEq, Repr

/-- `generate_vital_payload` (`simulator.py` lines 153-212): read the
patient's stored state (an absent entry acts as the freshly inserted `{}`),
generate the six channels with continuity from the stored previous values,
store all six generated values back under the patient's key, and return the
payload, whose blood-pressure fields pass through `int(...)`. -/
def generate_vital_payload (p : SimPatient) (states : List (ℤ × PatientSimState))
    (rnd : PayloadRand) : VitalPayload × List (ℤ × PatientSimState) :=
  let profile := get_patient_profile (p.condition_summary.getD "")
  let state := (statesGet? states p.id).getD emptySimState
  let heart_rate := generate_vital_value "heart_rate" profile state.heart_rate
    rnd.hrBias rnd.hrVal
  let temperature := generate_vital_value "temperature" profile state.temperature
    rnd.tempBias rnd.tempVal
  let spo2 := generate_vital_value "spo2" profile state.spo2 rnd.spo2Bias rnd.spo2Val
  let bp_systolic := generate_vital_value "blood_pressure_systolic" profile
    state.bp_systolic rnd.bpsBias rnd.bpsVal
  let bp_diastolic := generate_vital_value "blood_pressure_diastolic" profile
    state.bp_diastolic rnd.bpdBias rnd.bpdVal
  let respiratory_rate := generate_vital_value "respiratory_rate" profile
    state.respiratory_rate rnd.rrBias rnd.rrVal
  ({ patient_id := p.id, heart_rate := heart_rate, temperature := temperature,
     spo2 := spo2, blood_pressure_systolic := pyInt bp_systolic,
     blood_pressure_diastolic := pyInt bp_diastolic,
     respiratory_rate := respiratory_rate },
   statesSet states p.id
     { heart_rate := some heart_rate, temperature := some temperature,
       spo2 := some spo2, bp_systolic := some bp_systolic,
       bp_diastolic := some bp_diastolic, respiratory_rate := some respiratory_rate })

/-- Python dict semantics of the state table: after an assignment, reading
the same key finds exactly the assigned value. -/
theorem statesFind_statesSet (states : List (ℤ × PatientSimState)) (k : ℤ)
    (v : PatientSimState) :
    (statesSet states k v).find? (fun p => p.1 == k) = some (k, v) := by
  unfold statesSet
  split_ifs with h
  · induction states with
    | nil => simp at h
    | cons hd tl ih =>
      simp only [List.any_cons, Bool.or_eq_true] at h
      by_cases hk : hd.1 == k
      · simp [List.map_cons, List.find?, hk]
      · rcases h with h | h
        · exact absurd h hk
        · simp only [List.map_cons, List.find?, hk]
          simpa [hk] using ih h
  · induction states with
    | nil => simp [List.find?]
    | cons hd tl ih =>
      simp only [List.any_cons, Bool.or_eq_true, not_or] at h
      obtain ⟨h1, h2⟩ := h
      rw [List.cons_append]
      simp only [List.find?, Bool.not_eq_true] at h1 ⊢
      rw [h1]
      exact ih (by simpa using h2)

/-- Reading form of `statesFind_statesSet`. -/
theorem statesGet_statesSet (states : List (ℤ × PatientSimState)) (k : ℤ)
    (v : PatientSimState) : statesGet? (statesSet states k v) k = some v := by
  unfold statesGet?
  rw [statesFind_statesSet]
  rfl

/-- C10: after a payload generation, the stored per-patient state maps each
of the six channels to exactly the value generated in that call (the
channel value drawn with the previous stored value as continuity input),
and the payload carries those same values (blood pressure truncated by
`int(...)`), so the next call's previous value is the last value emitted. -/
theorem C10_state_stores_generated_values (p : SimPatient)
    (states : List (ℤ × PatientSimState)) (rnd : PayloadRand) :
    statesGet? (generate_vital_payload p states rnd).2 p.id =
      some
        { heart_rate := some (generate_vital_value "heart_rate"
            (get_patient_profile (p.condition_summary.getD ""))
            ((statesGet? states p.id).getD emptySimState).heart_rate rnd.hrBias rnd.hrVal),
          temperature := some (generate_vital_value "temperature"
            (get_patient_profile (p.condition_summary.getD ""))
            ((statesGet? states p.id).getD emptySimState).temperature rnd.tempBias rnd.tempVal),
          spo2 := some (generate_vital_value "spo2"
            (get_patient_profile (p.condition_summary.getD ""))
            ((statesGet? states p.id).getD emptySimState).spo2 rnd.spo2Bias rnd.spo2Val),
          bp_systolic := some (generate_vital_value "blood_pressure_systolic"
            (get_patient_profile (p.condition_summary.getD ""))
            ((statesGet? states p.id).getD emptySimState).bp_systolic rnd.bpsBias rnd.bpsVal),
          bp_diastolic := some (generate_vital_value "blood_pressure_diastolic"
            (get_patient_profile (p.condition_summary.getD ""))
            ((statesGet? states p.id).getD emptySimState).bp_diastolic rnd.bpdBias rnd.bpdVal),
          respiratory_rate := some (generate_vital_value "respiratory_rate"
            (get_patient_profile (p.condition_summary.getD ""))
            ((statesGet? states p.id).getD emptySimState).respiratory_rate rnd.rrBias rnd.rrVal) } ∧
    (generate_vital_payload p states rnd).1.heart_rate =
      generate_vital_value "heart_rate" (get_patient_profile (p.condition_summary.getD ""))
        ((statesGet? states p.id).getD emptySimState).heart_rate rnd.hrBias rnd.hrVal ∧
    (generate_vital_payload p states rnd).1.blood_pressure_systolic =
      pyInt (generate_vital_value "blood_pressure_systolic"
        (get_patient_profile (p.condition_summary.getD ""))
        ((statesGet? states p.id).getD emptySimState).bp_systolic rnd.bpsBias rnd.bpsVal) := by
  exact ⟨statesGet_statesSet states p.id _, rfl, rfl⟩

end VitalGuard
